import Mathlib

/-!
Verification of the adaptiveMFA.ai backend against its specification.

Each Python function under `src/backend/app` that a claim refers to is
shallowly embedded as a Lean definition below, translating the source code
directly: Python floats are modelled as rationals, fallible code as
`Except`/`Option`, database rows as structures, and wall-clock times as
integers.  The theorems at the end of the file settle the claims.
-/

/- ---------------------------------------------------------------------
Configuration (`app/config.py` is not part of the source tree; the values
needed by the claims are taken from the specification).
--------------------------------------------------------------------- -/

/-- Modelled from the spec: `settings.RISK_THRESHOLD_LOW` (spec 4.1 requires a
numeric threshold with low < high; spec 8.4 gives the example value 0.3).
`app/config.py` is not under src/. -/
def RISK_THRESHOLD_LOW : ℚ := 0.3

/-- Modelled from the spec: `settings.RISK_THRESHOLD_HIGH` (spec 4.1, example
value 0.7 from spec 8.4). `app/config.py` is not under src/. -/
def RISK_THRESHOLD_HIGH : ℚ := 0.7

/-- Modelled from the spec: `settings.SECRET_KEY`, the fixed application
signing secret (spec 4.20); its concrete value is configuration, not code. -/
def SECRET_KEY : String := "app-secret-key"

/- ---------------------------------------------------------------------
Risk service: `app/services/risk_service.py`
--------------------------------------------------------------------- -/

/-- Embedding of `RiskAssessmentService._combine_signals`
(risk_service.py lines 277-305): combines the device / behavior / ML /
location signals into one risk score. -/
def combine_signals (device_known : Bool) (deviation ml_score : ℚ)
    (location_metric : ℚ) : ℚ :=
  let device_factor : ℚ := if device_known then 0 else 0.35
  let behavior_factor : ℚ := min deviation 1 * 0.28
  let ml_factor : ℚ := min ml_score 1 * 0.27
  let location_factor : ℚ :=
    if location_metric > 900 then 0.10
    else if location_metric > 200 then 0.02
    else 0
  min 1 (device_factor + behavior_factor + ml_factor + location_factor)

/-- Embedding of `RiskAssessmentService._map_deviation_to_risk`
(risk_service.py lines 308-316). -/
def map_deviation_to_risk (deviation : ℚ) : String :=
  if deviation < 0.2 then "low"
  else if deviation < 0.5 then "medium"
  else "high"

/-- Embedding of the static utility `RiskAssessmentService.calculate_risk_score`
(risk_service.py lines 393-399): clamped average of the anomaly score with an
optional secondary score. -/
def calculate_risk_score (anomaly_score : ℚ) (rag_score : Option ℚ) : ℚ :=
  match rag_score with
  | none => max 0 (min 1 anomaly_score)
  | some r => max 0 (min 1 ((anomaly_score + r) / 2))

/-- A user's stored behavioral baseline (the three JSON fields read by
`calculate_behavior_deviation`; absent keys default to 0.0 via
`profile.get(_, 0.0)`). -/
structure BehaviorProfile where
  typing_speed : ℚ
  key_interval : ℚ
  key_hold : ℚ
deriving DecidableEq

/-- State of the `User.behavior_profile` JSON column as seen by
`BehavioralAnalysisService.calculate_behavior_deviation`: the column is falsy
(None or empty, line 65), holds a string `json.loads` rejects (the `except`
branch, line 80), or parses to a baseline profile. -/
inductive ProfileColumn where
  | absent : ProfileColumn
  | malformed : ProfileColumn
  | parsed : BehaviorProfile → ProfileColumn
deriving DecidableEq

/-- Embedding of the inner helper `dev` of `calculate_behavior_deviation`
(risk_service.py lines 70-73): relative difference from the baseline. -/
def relative_dev (current baseline : ℚ) : ℚ :=
  if baseline = 0 then (if current = 0 then 0 else 1)
  else |current - baseline| / baseline

/-- Embedding of `BehavioralAnalysisService.calculate_behavior_deviation`
(risk_service.py lines 54-82): maximum deviation of the three typing metrics
from the stored baseline, with defaults 0.3 (no profile) and 0.5 (error). -/
def calculate_behavior_deviation (profile : ProfileColumn)
    (typing_speed key_interval key_hold : ℚ) : ℚ :=
  match profile with
  | .absent => 0.3
  | .malformed => 0.5
  | .parsed p =>
      max (max (relative_dev typing_speed p.typing_speed)
               (relative_dev key_interval p.key_interval))
          (relative_dev key_hold p.key_hold)

/- ---------------------------------------------------------------------
Adaptive MFA decision engine: `app/services/adaptive_mfa_service.py`
--------------------------------------------------------------------- -/

/-- The dictionary returned by `RiskAssessmentService.assess_login`
(risk_service.py lines 228-239), as consumed by the adaptive MFA engine. -/
structure RiskData where
  risk_score : ℚ
  risk_level : String
  explanation : String
  device_fingerprint : Option String
  device_known : Bool
  last_seen : Option ℤ
  behavior_risk : String
  anomaly_score : ℚ
  location_metric : ℚ
  mfa_required : Bool
deriving DecidableEq

/-- The subset of the `User` model read by the adaptive MFA engine. -/
structure AppUser where
  email : String
  mfa_enabled : Bool
deriving DecidableEq

/-- The dictionary returned by `RiskBasedAdaptiveMFA.assess_login`
(adaptive_mfa_service.py lines 52-64). -/
structure MfaDecision where
  blocked : Bool
  block_reason : Option String
  risk_score : ℚ
  risk_level : String
  explanation : String
  device_fingerprint : Option String
  device_known : Bool
  last_seen : Option ℤ
  behavior_risk : String
  mfa_methods_required : List String
  mfa_required : Bool
deriving DecidableEq

/-- Embedding of `RiskBasedAdaptiveMFA._error_response`
(adaptive_mfa_service.py lines 70-84): the safe default returned when the
user is missing or an exception escapes. -/
def mfa_error_response : MfaDecision :=
  { blocked := false
    block_reason := none
    risk_score := 0.5
    risk_level := "medium"
    explanation := "Unable to assess risk - defaulting to MFA"
    device_fingerprint := none
    device_known := false
    last_seen := none
    behavior_risk := "medium"
    mfa_methods_required := ["totp"]
    mfa_required := true }

/-- Embedding of `RiskBasedAdaptiveMFA.assess_login`
(adaptive_mfa_service.py lines 19-68).  The database lookup of the user is
passed in as an `Option`; the risk service call never raises (it has its own
internal catch-all, risk_service.py line 241), so its result is passed as a
plain `RiskData`. -/
def mfa_assess_login (user : Option AppUser) (risk_data : RiskData) :
    MfaDecision :=
  match user with
  | none => mfa_error_response
  | some u =>
      let mfa_methods : List String :=
        if u.mfa_enabled then
          (if risk_data.risk_score > 0.3 then ["totp"] else [])
        else []
      let critical : Bool :=
        decide (risk_data.risk_score > 0.95) && !risk_data.device_known &&
          (risk_data.behavior_risk == "high")
      { blocked := critical
        block_reason :=
          if critical then
            some "Critical risk: Unknown device with anomalous behavior"
          else none
        risk_score := risk_data.risk_score
        risk_level := risk_data.risk_level
        explanation := risk_data.explanation
        device_fingerprint := risk_data.device_fingerprint
        device_known := risk_data.device_known
        last_seen := risk_data.last_seen
        behavior_risk := risk_data.behavior_risk
        mfa_methods_required := mfa_methods
        mfa_required := !mfa_methods.isEmpty }

/- ---------------------------------------------------------------------
Anomaly detection service: `app/services/anomaly_service.py`, with the
feature extractor from `app/utils/helpers.py`.
--------------------------------------------------------------------- -/

/-- The fields of a login-event dictionary read by `extract_features`
(helpers.py lines 44-72).  `timestamp` is `some (hour, weekday)` when
`datetime.fromisoformat` parses the string, `none` when it raises. -/
structure LoginEventData where
  timestamp : Option (ℚ × ℚ)
  ip_reputation : ℚ
  device_seen_before : Bool
  location_changed : Bool
deriving DecidableEq

/-- Embedding of `extract_features` (helpers.py lines 44-72): a 5-value
feature vector; any extraction error (an unparseable timestamp) yields the
neutral vector `[12, 3, 0.5, 0.5, 0.0]`. -/
def extract_features (e : LoginEventData) : List ℚ :=
  match e.timestamp with
  | some (hour, day_of_week) =>
      [hour, day_of_week, e.ip_reputation,
       if e.device_seen_before then 1 else 0,
       if e.location_changed then 1 else 0]
  | none => [12, 3, 0.5, 0.5, 0]

/-- A fitted scikit-learn model as used by `detect_anomaly`: a map from a
feature vector to a raw score (`score_samples` for the forest, positive-class
`predict_proba` for the classifier), raising (`Except.error`) when scoring
fails. -/
def MLModel : Type := List ℚ → Except Unit ℚ

/-- An unfitted fresh model instance (anomaly_service.py lines 47-57):
scoring it raises (scikit-learn's not-fitted error). -/
def unfitted_model : MLModel := fun _ => Except.error ()

/-- The state of `AnomalyService` after construction: the two model
attributes and the trained flag (anomaly_service.py lines 15-21). -/
structure AnomalyServiceState where
  is_trained : Bool
  iso_forest : Option MLModel
  logistic_reg : Option MLModel

/-- Embedding of `AnomalyService.load_models` (anomaly_service.py lines
23-63), as invoked by `__init__`: the artifact files are passed as `Option`s
(present and deserialized, or absent).  When both exist both are loaded and
the service is trained; otherwise both attributes are replaced by fresh
unfitted instances and the service is untrained. -/
def load_models (iso_file lr_file : Option MLModel) : AnomalyServiceState :=
  if iso_file.isSome && lr_file.isSome then
    { is_trained := true, iso_forest := iso_file, logistic_reg := lr_file }
  else
    { is_trained := false
      iso_forest := some unfitted_model
      logistic_reg := some unfitted_model }

/-- The body of the `try` block of `AnomalyService.detect_anomaly`
(anomaly_service.py lines 152-174): guard clause, feature extraction, the
two model scores, normalization of the forest score from the assumed raw
range [-1.0, 0.5], and the 50/50 ensemble. -/
def detect_anomaly_try (svc : AnomalyServiceState) (e : LoginEventData) :
    Except Unit ℚ := do
  if !svc.is_trained || svc.iso_forest.isNone || svc.logistic_reg.isNone then
    return 0.5
  let features := extract_features e
  let iso_score ← (svc.iso_forest.getD unfitted_model) features
  let iso_normalized := (iso_score - (-1.0)) / (0.5 - (-1.0))
  let iso_normalized := max 0 (min 1 iso_normalized)
  let lr_score ← (svc.logistic_reg.getD unfitted_model) features
  return 0.5 * lr_score + 0.5 * iso_normalized

/-- Embedding of `AnomalyService.detect_anomaly` (anomaly_service.py lines
150-178): the `try` body with its catch-all returning the neutral 0.5. -/
def detect_anomaly (svc : AnomalyServiceState) (e : LoginEventData) : ℚ :=
  match detect_anomaly_try svc e with
  | Except.ok s => s
  | Except.error _ => 0.5

/- ---------------------------------------------------------------------
Session model: `app/models/session.py`
--------------------------------------------------------------------- -/

/-- Embedding of the `SessionStatus` enum (session.py lines 9-13). -/
inductive SessionStatus where
  | active : SessionStatus
  | expired : SessionStatus
  | revoked : SessionStatus
  | invalidated : SessionStatus
deriving DecidableEq

/-- The columns of the `Session` row read or written by `is_expired`,
`is_valid`, `revoke` and `invalidate` (session.py); timestamps are integers
(seconds). -/
structure SessionRow where
  is_active : Bool
  status : SessionStatus
  expires_at : ℤ
  revoked_at : Option ℤ
deriving DecidableEq

/-- Embedding of `Session.is_expired` (session.py lines 80-81); `now` is the
value of `datetime.now(timezone.utc)`. -/
def session_is_expired (s : SessionRow) (now : ℤ) : Bool :=
  now > s.expires_at

/-- Embedding of `Session.is_valid` (session.py lines 83-88). -/
def session_is_valid (s : SessionRow) (now : ℤ) : Bool :=
  s.is_active && !session_is_expired s now &&
    decide (s.status = SessionStatus.active)

/-- A freshly created session row: the column defaults of session.py lines
34-46 (`is_active` true, status `ACTIVE`, no revocation time) with the
caller-supplied expiry. -/
def new_session (expires_at : ℤ) : SessionRow :=
  { is_active := true
    status := SessionStatus.active
    expires_at := expires_at
    revoked_at := none }

/-- Embedding of `Session.revoke` (session.py lines 90-93). -/
def session_revoke (s : SessionRow) (now : ℤ) : SessionRow :=
  { s with is_active := false
           status := SessionStatus.revoked
           revoked_at := some now }

/- ---------------------------------------------------------------------
Password-reset tokens: `app/utils/tokens.py`
--------------------------------------------------------------------- -/

/-- Modelled from the spec: the third-party `itsdangerous` signer is not
under src/; per spec 4.20 a token carries the payload and its signing time,
authenticated by a signature keyed by the application secret and a salt. -/
structure SignedToken where
  payload : String
  signed_at : ℤ
  signature : ℕ
deriving DecidableEq

/-- Modelled from the spec: the keyed signature over payload and signing
time ("signing uses a fixed application secret and a fixed context string to
scope the signature", spec 4.20).  A simple injective-by-construction keyed
hash stands in for the HMAC, whose algebraic details the spec leaves to the
library. -/
def token_signature (secret salt payload : String) (signed_at : ℤ) : ℕ :=
  (secret ++ "|" ++ salt ++ "|" ++ payload).toList.foldl
      (fun a c => a * 131 + c.toNat + 1) 7 * 2 ^ 64 +
    signed_at.natAbs * 2 + (if signed_at < 0 then 1 else 0)

/-- Modelled from the spec: `URLSafeTimedSerializer.dumps` embeds the payload,
the signing time, and the signature. -/
def serializer_dumps (secret salt payload : String) (now : ℤ) : SignedToken :=
  { payload := payload
    signed_at := now
    signature := token_signature secret salt payload now }

/-- Modelled from the spec: `URLSafeTimedSerializer.loads` re-computes and
checks the signature (`BadSignature` on mismatch) and then rejects tokens
older than `max_age` seconds (`SignatureExpired`); both exceptions are the
failure outcome. -/
def serializer_loads (secret salt : String) (tok : SignedToken)
    (max_age : ℤ) (now : ℤ) : Option String :=
  if tok.signature ≠ token_signature secret salt tok.payload tok.signed_at then
    none
  else if now - tok.signed_at > max_age then none
  else some tok.payload

/-- Embedding of `create_password_reset_token` (tokens.py lines 6-8); `now`
is the signing time the serializer stamps into the token. -/
def create_password_reset_token (email : String) (now : ℤ) : SignedToken :=
  serializer_dumps SECRET_KEY "password-reset-salt" email now

/-- Embedding of `verify_password_reset_token` (tokens.py lines 10-17); the
Python default for `max_age` is 900 seconds. -/
def verify_password_reset_token (token : SignedToken) (max_age : ℤ)
    (now : ℤ) : Option String :=
  serializer_loads SECRET_KEY "password-reset-salt" token max_age now

/- ---------------------------------------------------------------------
Risk-explanation workflow, score-risk step:
`app/services/langgraph_service.py` lines 88-108.
--------------------------------------------------------------------- -/

/-- The slice of the workflow state read by `score_risk_node`: the anomaly
score from the previous step, plus the login event and optional user history
it passes along to the scoring call. -/
structure ScoreRiskInput where
  anomaly_score : ℚ
  login_event : List (String × String)
  user_history : Option (List (String × String))
deriving DecidableEq

/-- The state fields written by `score_risk_node`. -/
structure ScoreRiskOutput where
  risk_score : ℚ
  recommendation : String
  action_required : Bool
deriving DecidableEq

/-- Python call semantics for positional application: applying a function
that accepts at most `accepted` positional parameters to `given` arguments
raises `TypeError` before the body runs. -/
def py_call_positional (accepted given : Nat)
    (body : Unit → Except String α) : Except String α :=
  if given ≤ accepted then body () else Except.error "TypeError"

/-- Number of positional parameters `RiskAssessmentService.calculate_risk_score`
accepts (risk_service.py line 394: `anomaly_score` and `rag_score`). -/
def calculate_risk_score_max_positional : Nat := 2

/-- The body of the `try` block of `LangGraphWorkflow.score_risk_node`
(langgraph_service.py lines 91-105).  Line 92 applies
`calculate_risk_score` to three positional arguments: the anomaly score, the
login-event dict, and the user history; the function accepts at most two, so
the call raises `TypeError` before any score is computed.  Were the arity
accepted, the very next statement (line 97) would still raise
`AttributeError`: `RiskAssessmentService` defines no `get_recommendation`. -/
def score_risk_try (state : ScoreRiskInput) : Except String ScoreRiskOutput :=
  py_call_positional calculate_risk_score_max_positional 3 (fun _ =>
    Except.error "AttributeError")

/-- Embedding of `LangGraphWorkflow.score_risk_node` (langgraph_service.py
lines 88-108): the `try` body with its `except` branch substituting risk
score 0.5, recommendation "verify", and action required true. -/
def score_risk_node (state : ScoreRiskInput) : ScoreRiskOutput :=
  match score_risk_try state with
  | Except.ok r => r
  | Except.error _ =>
      { risk_score := 0.5, recommendation := "verify", action_required := true }

/-- What the claim says the score-risk step does: compute the risk score with
the standalone utility `calculate_risk_score` and set `action_required`
exactly when that score exceeds `RISK_THRESHOLD_HIGH`.  Stated from the
spec's words for comparison with `score_risk_node`. -/
def score_risk_node_claimed (state : ScoreRiskInput) : ScoreRiskOutput :=
  let s := calculate_risk_score state.anomaly_score none
  { risk_score := s
    recommendation := "verify"
    action_required := decide (s > RISK_THRESHOLD_HIGH) }

/- ---------------------------------------------------------------------
List chunking: `app/utils/helpers.py` lines 132-134.
--------------------------------------------------------------------- -/

/-- Embedding of `chunk_list` (helpers.py lines 132-134):
`[items[i:i + chunk_size] for i in range(0, len(items), chunk_size)]`.
For a positive step, `range(0, n, step)` has `ceil(n / step)` elements
`0, step, 2*step, ...`, and the slice `items[i:i+k]` is `take k (drop i)`.
(Python raises `ValueError` for `chunk_size = 0`; the claims only concern
positive chunk sizes.) -/
def chunk_list (items : List α) (chunk_size : ℕ) : List (List α) :=
  (List.range' 0 ((items.length + chunk_size - 1) / chunk_size)
      chunk_size).map
    (fun i => (items.drop i).take chunk_size)

/- ---------------------------------------------------------------------
Device-fingerprint validator: `app/utils/validators.py` lines 54-58.
--------------------------------------------------------------------- -/

/-- The character class `[a-zA-Z0-9]` of the validator's regular
expression, by decimal code point: digits are 48-57, uppercase letters
65-90, lowercase letters 97-122. -/
def regex_alnum_char (c : Char) : Bool :=
  (48 ≤ c.toNat && c.toNat ≤ 57) || (65 ≤ c.toNat && c.toNat ≤ 90) ||
    (97 ≤ c.toNat && c.toNat ≤ 122)

/-- Embedding of `validate_device_fingerprint` (validators.py lines 54-58):
`bool(re.match(r'^[a-zA-Z0-9]{32}$', fingerprint))`.  Python's `$` matches
at the end of the string or just before one trailing newline, so the regex
accepts 32 alphanumeric characters optionally followed by a single final
newline. -/
def validate_device_fingerprint (fingerprint : String) : Bool :=
  let cs := fingerprint.toList
  ((cs.take 32).length == 32 && (cs.take 32).all regex_alnum_char) &&
    (cs.drop 32 == [] || cs.drop 32 == ['\n'])

/- ---------------------------------------------------------------------
Device fingerprinting: `app/services/risk_service.py` lines 19-27.
The source computes `hashlib.sha256(raw.encode()).hexdigest()`; SHA-256
(FIPS 180-4) is implemented below over natural numbers, with 32-bit words
represented as naturals reduced modulo 2^32.
--------------------------------------------------------------------- -/

/-- UTF-8 encoding of one Unicode code point (the semantics of Python's
`str.encode()`), as a list of byte values. -/
def utf8_encode_char (c : ℕ) : List ℕ :=
  if c < 0x80 then [c]
  else if c < 0x800 then [0xc0 + c / 64, 0x80 + c % 64]
  else if c < 0x10000 then
    [0xe0 + c / 4096, 0x80 + c / 64 % 64, 0x80 + c % 64]
  else
    [0xf0 + c / 262144, 0x80 + c / 4096 % 64, 0x80 + c / 64 % 64,
     0x80 + c % 64]

/-- UTF-8 byte sequence of a string (`raw.encode()` in the source). -/
def str_bytes (s : String) : List ℕ :=
  s.toList.flatMap (fun c => utf8_encode_char c.toNat)

/-- Right rotation of a 32-bit word (input assumed < 2^32). -/
def rotr32 (n x : ℕ) : ℕ :=
  x / 2 ^ n + x % 2 ^ n * 2 ^ (32 - n)

/-- The SHA-256 round constants K, the first 32 bits of the fractional parts
of the cube roots of the first 64 primes. -/
def sha256_k : List ℕ :=
  [1116352408, 1899447441, 3049323471, 3921009573, 961987163,
   1508970993, 2453635748, 2870763221, 3624381080, 310598401,
   607225278, 1426881987, 1925078388, 2162078206, 2614888103,
   3248222580, 3835390401, 4022224774, 264347078, 604807628,
   770255983, 1249150122, 1555081692, 1996064986, 2554220882,
   2821834349, 2952996808, 3210313671, 3336571891, 3584528711,
   113926993, 338241895, 666307205, 773529912, 1294757372,
   1396182291, 1695183700, 1986661051, 2177026350, 2456956037,
   2730485921, 2820302411, 3259730800, 3345764771, 3516065817,
   3600352804, 4094571909, 275423344, 430227734, 506948616,
   659060556, 883997877, 958139571, 1322822218, 1537002063,
   1747873779, 1955562222, 2024104815, 2227730452, 2361852424,
   2428436474, 2756734187, 3204031479, 3329325298]

/-- The SHA-256 working state: eight 32-bit words. -/
structure Sha256State where
  a : ℕ
  b : ℕ
  c : ℕ
  d : ℕ
  e : ℕ
  f : ℕ
  g : ℕ
  h : ℕ

/-- The SHA-256 initial hash value H0, the first 32 bits of the fractional
parts of the square roots of the first 8 primes. -/
def sha256_h0 : Sha256State :=
  { a := 1779033703, b := 3144134277, c := 1013904242, d := 2773480762
    e := 1359893119, f := 2600822924, g := 528734635, h := 1541459225 }

/-- SHA-256 message padding: append the byte 0x80, then zero bytes until the
length is 56 mod 64, then the 64-bit big-endian bit length of the message. -/
def sha256_pad (msg : List ℕ) : List ℕ :=
  let z := (64 - (msg.length + 9) % 64) % 64
  msg ++ [0x80] ++ List.replicate z 0 ++
    (List.range 8).map (fun i => 8 * msg.length / 2 ^ (8 * (7 - i)) % 256)

/-- Splits the padded message into 64-byte blocks. -/
def sha256_blocks (l : List ℕ) : List (List ℕ) :=
  (List.range (l.length / 64)).map (fun i => (l.drop (64 * i)).take 64)

/-- The first 16 words of the message schedule: the block's bytes read as
big-endian 32-bit words. -/
def sha256_block_words (block : List ℕ) : List ℕ :=
  (List.range 16).map (fun i =>
    block.getD (4 * i) 0 * 2 ^ 24 + block.getD (4 * i + 1) 0 * 2 ^ 16 +
      block.getD (4 * i + 2) 0 * 2 ^ 8 + block.getD (4 * i + 3) 0)

/-- One extension step of the message schedule: appends
`σ1(w[t-2]) + w[t-7] + σ0(w[t-15]) + w[t-16]` modulo 2^32. -/
def sha256_schedule_step (w : List ℕ) : List ℕ :=
  let n := w.length
  let s0 := fun x => (rotr32 7 x) ^^^ (rotr32 18 x) ^^^ (x / 2 ^ 3)
  let s1 := fun x => (rotr32 17 x) ^^^ (rotr32 19 x) ^^^ (x / 2 ^ 10)
  w ++ [(s1 (w.getD (n - 2) 0) + w.getD (n - 7) 0 + s0 (w.getD (n - 15) 0) +
        w.getD (n - 16) 0) % 2 ^ 32]

/-- Iterates a function n times. -/
def iterate_fn (f : α → α) : ℕ → α → α
  | 0, x => x
  | n + 1, x => iterate_fn f n (f x)

/-- The full 64-word message schedule of one block. -/
def sha256_schedule (block : List ℕ) : List ℕ :=
  iterate_fn sha256_schedule_step 48 (sha256_block_words block)

/-- One SHA-256 compression round with round constant `kt` and schedule word
`wt`. -/
def sha256_round (s : Sha256State) (kw : ℕ × ℕ) : Sha256State :=
  let x1 := fun x => (rotr32 6 x) ^^^ (rotr32 11 x) ^^^ (rotr32 25 x)
  let x0 := fun x => (rotr32 2 x) ^^^ (rotr32 13 x) ^^^ (rotr32 22 x)
  let ch := (s.e &&& s.f) ^^^ ((2 ^ 32 - 1 - s.e) &&& s.g)
  let maj := (s.a &&& s.b) ^^^ (s.a &&& s.c) ^^^ (s.b &&& s.c)
  let t1 := (s.h + x1 s.e + ch + kw.1 + kw.2) % 2 ^ 32
  let t2 := (x0 s.a + maj) % 2 ^ 32
  { a := (t1 + t2) % 2 ^ 32, b := s.a, c := s.b, d := s.c
    e := (s.d + t1) % 2 ^ 32, f := s.e, g := s.f, h := s.g }

/-- Compression of one 64-byte block: 64 rounds, then word-wise addition of
the incoming state modulo 2^32. -/
def sha256_compress (s : Sha256State) (block : List ℕ) : Sha256State :=
  let t := (sha256_k.zip (sha256_schedule block)).foldl sha256_round s
  { a := (s.a + t.a) % 2 ^ 32, b := (s.b + t.b) % 2 ^ 32
    c := (s.c + t.c) % 2 ^ 32, d := (s.d + t.d) % 2 ^ 32
    e := (s.e + t.e) % 2 ^ 32, f := (s.f + t.f) % 2 ^ 32
    g := (s.g + t.g) % 2 ^ 32, h := (s.h + t.h) % 2 ^ 32 }

/-- The SHA-256 digest of a byte sequence, as eight 32-bit words. -/
def sha256_words (msg : List ℕ) : List ℕ :=
  let s := (sha256_blocks (sha256_pad msg)).foldl sha256_compress sha256_h0
  [s.a, s.b, s.c, s.d, s.e, s.f, s.g, s.h]

/-- The sixteen lowercase hexadecimal digit characters, 0-9 (code points
48-57) followed by a-f (code points 97-102). -/
def hex_chars : List Char :=
  (List.range 16).map
    (fun n => if n < 10 then Char.ofNat (48 + n) else Char.ofNat (87 + n))

/-- The lowercase hexadecimal digit for a value < 16. -/
def hex_digit (n : ℕ) : Char := hex_chars.getD n '0'

/-- A 32-bit word as eight lowercase hexadecimal characters, big-endian. -/
def word_hex (w : ℕ) : List Char :=
  (List.range 8).map (fun i => hex_digit (w / 16 ^ (7 - i) % 16))

/-- The hexadecimal digest string of SHA-256 over a byte sequence
(`hashlib.sha256(data).hexdigest()`). -/
def sha256_hexdigest (msg : List ℕ) : String :=
  String.mk ((sha256_words msg).flatMap word_hex)

/-- Embedding of `DeviceFingerprintService.calculate_fingerprint`
(risk_service.py lines 19-27): the hex SHA-256 digest of the UTF-8 encoding
of the three fields joined with the pipe character.  (The f-string cannot
raise on string inputs, so the `except` branch at line 25 is dead for the
claims' domain; the `or ''` defaults only matter for `None` inputs.) -/
def calculate_fingerprint (user_agent ip_address device_id : String) : String :=
  sha256_hexdigest
    (str_bytes (user_agent ++ "|" ++ ip_address ++ "|" ++ device_id))

/- ---------------------------------------------------------------------
Helper lemmas about the hex digest.
--------------------------------------------------------------------- -/

lemma word_hex_length (w : ℕ) : (word_hex w).length = 8 := by
  simp [word_hex]

lemma sha256_words_length (m : List ℕ) : (sha256_words m).length = 8 := rfl

lemma flatMap_word_hex_length (l : List ℕ) :
    (l.flatMap word_hex).length = 8 * l.length := by
  induction l with
  | nil => simp
  | cons x xs ih => simp [List.flatMap_cons, word_hex_length, ih]; ring

lemma sha256_hexdigest_length (m : List ℕ) :
    (sha256_hexdigest m).length = 64 := by
  show ((sha256_words m).flatMap word_hex).length = 64
  rw [flatMap_word_hex_length, sha256_words_length]

lemma fingerprint_length (ua ip dev : String) :
    (calculate_fingerprint ua ip dev).length = 64 :=
  sha256_hexdigest_length _

lemma getD_mem {l : List Char} {d : Char} (hd : d ∈ l) (n : ℕ) :
    l.getD n d ∈ l := by
  rw [List.getD_eq_getElem?_getD]
  cases h : l[n]? with
  | none => simpa using hd
  | some x => simpa using List.getElem?_mem h

lemma hex_digit_mem (n : ℕ) : hex_digit n ∈ hex_chars :=
  getD_mem (by decide) n

lemma sha256_hexdigest_chars (m : List ℕ) :
    ∀ c ∈ (sha256_hexdigest m).data, c ∈ hex_chars := by
  intro c hc
  have hm : c ∈ (sha256_words m).flatMap word_hex := hc
  rcases List.mem_flatMap.mp hm with ⟨w, _, hw⟩
  unfold word_hex at hw
  rcases List.mem_map.mp hw with ⟨i, _, hi⟩
  rw [← hi]
  exact hex_digit_mem _

/- ---------------------------------------------------------------------
Claim theorems C8, C9.
--------------------------------------------------------------------- -/

/-- C8: every computed device fingerprint is a 64-character string of
lowercase hexadecimal characters, and it depends only on the pipe-joined
input string (hence is deterministic).  The claim's further conjunct, that
the fingerprint differs whenever one of the three inputs differs, is refuted
by `spec_c8_counterexample`. -/
theorem spec_c8_fingerprint (ua ip dev : String) :
    (calculate_fingerprint ua ip dev).length = 64
    ∧ (∀ c ∈ (calculate_fingerprint ua ip dev).data, c ∈ hex_chars)
    ∧ (∀ ua2 ip2 dev2 : String,
        ua ++ "|" ++ ip ++ "|" ++ dev = ua2 ++ "|" ++ ip2 ++ "|" ++ dev2 →
        calculate_fingerprint ua ip dev = calculate_fingerprint ua2 ip2 dev2) := by
  refine ⟨fingerprint_length ua ip dev, sha256_hexdigest_chars _, ?_⟩
  intro ua2 ip2 dev2 h
  unfold calculate_fingerprint
  rw [h]

/-- C8 witness: the theorem applied at a concrete input. -/
theorem spec_c8_fingerprint_witness :
    (calculate_fingerprint "Mozilla" "1.2.3.4" "dev1").length = 64
    ∧ calculate_fingerprint "Mozilla" "1.2.3.4" "dev1" =
        calculate_fingerprint "Mozilla" "1.2.3.4" "dev1" :=
  ⟨(spec_c8_fingerprint "Mozilla" "1.2.3.4" "dev1").1,
   (spec_c8_fingerprint "Mozilla" "1.2.3.4" "dev1").2.2 "Mozilla" "1.2.3.4"
     "dev1" rfl⟩

/-- C8 counterexample: two triples that differ in their user-agent (and ip)
components produce the same fingerprint, because a pipe character inside a
field shifts content between fields of the unescaped join.  This refutes
"the fingerprint differs whenever any one of the three inputs differs". -/
theorem spec_c8_counterexample :
    calculate_fingerprint "a|b" "c" "x" = calculate_fingerprint "a" "b|c" "x"
    ∧ ("a|b" : String) ≠ "a" ∧ ("c" : String) ≠ "b|c" := by
  refine ⟨?_, by decide, by decide⟩
  unfold calculate_fingerprint
  exact congrArg (fun s => sha256_hexdigest (str_bytes s)) (by decide)

/-- C9: the device-fingerprint validator accepts exactly the strings of 32
alphanumeric characters, optionally followed by one final newline (the
trailing-newline case comes from Python's end-of-string anchor and is the
subject of `spec_c9_counterexample`); consequently it rejects every
64-character fingerprint the fingerprinting service produces. -/
theorem spec_c9_validator :
    (∀ s : String,
        validate_device_fingerprint s = true ↔
          ((s.length = 32 ∧ ∀ c ∈ s.data, regex_alnum_char c = true) ∨
           (∃ t : List Char, s.data = t ++ ['\n'] ∧ t.length = 32 ∧
             ∀ c ∈ t, regex_alnum_char c = true)))
    ∧ (∀ ua ip dev : String,
        validate_device_fingerprint (calculate_fingerprint ua ip dev) = false) := by
  constructor
  · intro s
    show ((((s.data.take 32).length == 32 && (s.data.take 32).all regex_alnum_char)) &&
        (s.data.drop 32 == [] || s.data.drop 32 == ['\n'])) = true ↔ _
    simp only [Bool.and_eq_true, Bool.or_eq_true, beq_iff_eq, List.all_eq_true,
      List.length_take]
    constructor
    · rintro ⟨⟨hlen, hall⟩, hdrop | hdrop⟩
      · left
        have hle : s.data.length ≤ 32 := List.drop_eq_nil_iff.mp hdrop
        have h32 : s.data.length = 32 := by omega
        have htake : s.data.take 32 = s.data := List.take_of_length_le hle
        rw [htake] at hall
        exact ⟨h32, hall⟩
      · right
        refine ⟨s.data.take 32, ?_, ?_, hall⟩
        · rw [← hdrop]
          exact (List.take_append_drop 32 s.data).symm
        · have h1 : (s.data.drop 32).length = 1 := by rw [hdrop]; rfl
          rw [List.length_drop] at h1
          rw [List.length_take]
          omega
    · rintro (⟨hlen, hall⟩ | ⟨t, ht, htlen, hall⟩)
      · have h32 : s.data.length = 32 := hlen
        refine ⟨⟨by omega, ?_⟩, Or.inl (List.drop_eq_nil_iff.mpr (by omega))⟩
        intro c hc
        exact hall c (List.mem_of_mem_take hc)
      · rw [ht]
        have htake : (t ++ ['\n']).take 32 = t := List.take_left' htlen
        have hdrop : (t ++ ['\n']).drop 32 = ['\n'] := List.drop_left' htlen
        rw [htake, hdrop]
        refine ⟨⟨?_, hall⟩, Or.inr rfl⟩
        simp [htlen]
  · intro ua ip dev
    have hlen : (calculate_fingerprint ua ip dev).data.length = 64 :=
      fingerprint_length ua ip dev
    show ((((calculate_fingerprint ua ip dev).data.take 32).length == 32 &&
        ((calculate_fingerprint ua ip dev).data.take 32).all regex_alnum_char) &&
        ((calculate_fingerprint ua ip dev).data.drop 32 == [] ||
         (calculate_fingerprint ua ip dev).data.drop 32 == ['\n'])) = false
    have hd : ((calculate_fingerprint ua ip dev).data.drop 32).length = 32 := by
      rw [List.length_drop, hlen]
    have e1 : ((calculate_fingerprint ua ip dev).data.drop 32 ==
        ([] : List Char)) = false := by
      rw [beq_eq_false_iff_ne]
      intro h
      rw [h] at hd
      simp at hd
    have e2 : ((calculate_fingerprint ua ip dev).data.drop 32 ==
        ['\n']) = false := by
      rw [beq_eq_false_iff_ne]
      intro h
      rw [h] at hd
      simp at hd
    rw [e1, e2]
    simp

/-- C9 counterexample: a string of 32 copies of the letter a followed by a
newline is accepted by the validator although it does not consist of exactly
32 alphanumeric characters (it has 33 characters). -/
theorem spec_c9_counterexample :
    validate_device_fingerprint "aaaaaaaaaaaaaaaaaaaaaaaaaaaaaaaa\n" = true
    ∧ ("aaaaaaaaaaaaaaaaaaaaaaaaaaaaaaaa\n" : String).length ≠ 32 := by
  constructor
  · decide
  · decide

/- ---------------------------------------------------------------------
Claim theorems C1, C2, C4.
--------------------------------------------------------------------- -/

/-- C1: the combined risk score equals
min(1, device_factor + behavior_factor + ml_factor + location_factor) with
the factors of the specification, and for device-known in Bool, deviation
and ml-score in [0,1] and speed in [0,2000] it lies in [0,1]. -/
theorem spec_c1_combine_signals (device_known : Bool)
    (deviation ml_score speed : ℚ) :
    combine_signals device_known deviation ml_score speed =
      min 1 ((if device_known then 0 else 0.35) + min deviation 1 * 0.28 +
        min ml_score 1 * 0.27 +
        (if speed > 900 then 0.10 else if speed > 200 then 0.02 else 0))
    ∧ (0 ≤ deviation → deviation ≤ 1 → 0 ≤ ml_score → ml_score ≤ 1 →
       0 ≤ speed → speed ≤ 2000 →
       0 ≤ combine_signals device_known deviation ml_score speed ∧
         combine_signals device_known deviation ml_score speed ≤ 1) := by
  have heq : combine_signals device_known deviation ml_score speed =
      min 1 ((if device_known then 0 else 0.35) + min deviation 1 * 0.28 +
        min ml_score 1 * 0.27 +
        (if speed > 900 then 0.10 else if speed > 200 then 0.02 else 0)) := rfl
  refine ⟨heq, ?_⟩
  intro hd0 _ hm0 _ _ _
  rw [heq]
  constructor
  · refine le_min (by norm_num) ?_
    have h1 : (0:ℚ) ≤ (if device_known then 0 else 0.35) := by
      split <;> norm_num
    have h2 : (0:ℚ) ≤ min deviation 1 * 0.28 :=
      mul_nonneg (le_min hd0 (by norm_num)) (by norm_num)
    have h3 : (0:ℚ) ≤ min ml_score 1 * 0.27 :=
      mul_nonneg (le_min hm0 (by norm_num)) (by norm_num)
    have h4 : (0:ℚ) ≤
        (if speed > 900 then (0.10:ℚ) else if speed > 200 then 0.02 else 0) := by
      split_ifs <;> norm_num
    linarith
  · exact min_le_left _ _

/-- C1 witness: the bounds at a concrete input. -/
theorem spec_c1_combine_signals_witness :
    0 ≤ combine_signals false 0.5 0.5 250
    ∧ combine_signals false 0.5 0.5 250 ≤ 1 :=
  (spec_c1_combine_signals false 0.5 0.5 250).2 (by norm_num) (by norm_num)
    (by norm_num) (by norm_num) (by norm_num) (by norm_num)

/-- C2: for an existing user, the MFA decision requires exactly the method
list ["totp"] when the user has MFA enabled and the risk score exceeds 0.3
(otherwise the list is empty), and is blocked with the critical-risk reason
exactly when the score exceeds 0.95, the device is unknown, and the
behavior risk is high. -/
theorem spec_c2_mfa_decision (u : AppUser) (rd : RiskData) :
    ((mfa_assess_login (some u) rd).mfa_methods_required = ["totp"] ↔
      (u.mfa_enabled = true ∧ rd.risk_score > 0.3))
    ∧ ((mfa_assess_login (some u) rd).mfa_methods_required = ["totp"] ∨
       (mfa_assess_login (some u) rd).mfa_methods_required = [])
    ∧ ((mfa_assess_login (some u) rd).blocked = true ↔
       (rd.risk_score > 0.95 ∧ rd.device_known = false ∧
         rd.behavior_risk = "high"))
    ∧ ((mfa_assess_login (some u) rd).blocked = true ↔
       (mfa_assess_login (some u) rd).block_reason =
         some "Critical risk: Unknown device with anomalous behavior") := by
  have hm : (mfa_assess_login (some u) rd).mfa_methods_required =
      (if u.mfa_enabled then
        (if rd.risk_score > 0.3 then ["totp"] else []) else []) := rfl
  have hb : (mfa_assess_login (some u) rd).blocked =
      (decide (rd.risk_score > 0.95) && !rd.device_known &&
        (rd.behavior_risk == "high")) := rfl
  have hr : (mfa_assess_login (some u) rd).block_reason =
      (if (decide (rd.risk_score > 0.95) && !rd.device_known &&
            (rd.behavior_risk == "high")) then
        some "Critical risk: Unknown device with anomalous behavior"
      else none) := rfl
  refine ⟨?_, ?_, ?_, ?_⟩
  · rw [hm]
    rcases Bool.eq_false_or_eq_true u.mfa_enabled with he | he <;>
      by_cases hs : rd.risk_score > 0.3 <;> simp [he, hs]
  · rw [hm]
    split_ifs <;> simp
  · rw [hb]
    simp [Bool.and_eq_true, decide_eq_true_eq, Bool.not_eq_true',
      beq_iff_eq, and_assoc]
  · rw [hb, hr]
    cases hc : (decide (rd.risk_score > 0.95) && !rd.device_known &&
        (rd.behavior_risk == "high")) <;> simp [hc]

/-- C4: a session is valid exactly while the active flag is set, the
current time is not past the expiry, and the status is active; a fresh
unexpired session is valid; revocation invalidates it, sets status revoked,
clears the active flag and stamps the revocation time; and a session whose
stored expiry has passed is invalid without any revocation. -/
theorem spec_c4_session (s : SessionRow) (expires now t rt : ℤ) :
    (session_is_valid s now = true ↔
      (s.is_active = true ∧ ¬ now > s.expires_at ∧
        s.status = SessionStatus.active))
    ∧ (now ≤ expires → session_is_valid (new_session expires) now = true)
    ∧ (session_is_valid (session_revoke s rt) t = false
       ∧ (session_revoke s rt).status = SessionStatus.revoked
       ∧ (session_revoke s rt).is_active = false
       ∧ (session_revoke s rt).revoked_at = some rt)
    ∧ (now > s.expires_at → session_is_valid s now = false) := by
  refine ⟨?_, ?_, ⟨?_, rfl, rfl, rfl⟩, ?_⟩
  · simp [session_is_valid, session_is_expired, and_assoc]
  · intro h
    simp [session_is_valid, session_is_expired, new_session]
    omega
  · simp [session_is_valid, session_revoke]
  · intro h
    simp [session_is_valid, session_is_expired, h]

/-- C4 witness: the fresh-session and expired-session parts at concrete
times. -/
theorem spec_c4_session_witness :
    session_is_valid (new_session 100) 50 = true
    ∧ session_is_valid
        { is_active := true, status := SessionStatus.active,
          expires_at := 100, revoked_at := none } 200 = false :=
  ⟨(spec_c4_session (new_session 100) 100 50 0 0).2.1 (by decide),
   (spec_c4_session
      { is_active := true, status := SessionStatus.active,
        expires_at := 100, revoked_at := none } 0 200 0 0).2.2.2 (by decide)⟩

/- ---------------------------------------------------------------------
Claim theorems C5, C6, C7.
--------------------------------------------------------------------- -/

/-- C5: the behavioral deviation is 0.3 without a stored baseline, 0.5 on a
computation error, and otherwise the maximum of the three relative
differences with the zero-baseline conventions; the deviation maps to risk
low below 0.2, medium below 0.5, and high otherwise. -/
theorem spec_c5_behavior_deviation :
    (∀ ts ki kh : ℚ, calculate_behavior_deviation ProfileColumn.absent
        ts ki kh = 0.3)
    ∧ (∀ ts ki kh : ℚ, calculate_behavior_deviation ProfileColumn.malformed
        ts ki kh = 0.5)
    ∧ (∀ (p : BehaviorProfile) (ts ki kh : ℚ),
        calculate_behavior_deviation (ProfileColumn.parsed p) ts ki kh =
          max (max
            (if p.typing_speed = 0 then (if ts = 0 then 0 else 1)
             else |ts - p.typing_speed| / p.typing_speed)
            (if p.key_interval = 0 then (if ki = 0 then 0 else 1)
             else |ki - p.key_interval| / p.key_interval))
            (if p.key_hold = 0 then (if kh = 0 then 0 else 1)
             else |kh - p.key_hold| / p.key_hold))
    ∧ (∀ d : ℚ,
        (map_deviation_to_risk d = "low" ↔ d < 0.2)
        ∧ (map_deviation_to_risk d = "medium" ↔ (0.2 ≤ d ∧ d < 0.5))
        ∧ (map_deviation_to_risk d = "high" ↔ 0.5 ≤ d)) := by
  refine ⟨fun ts ki kh => rfl, fun ts ki kh => rfl, fun p ts ki kh => rfl, ?_⟩
  intro d
  unfold map_deviation_to_risk
  split_ifs with h1 h2
  · refine ⟨⟨fun _ => h1, fun _ => rfl⟩, ?_, ?_⟩
    · exact ⟨fun hx => absurd hx (by decide),
        fun hx => absurd h1 (not_lt.mpr hx.1)⟩
    · exact ⟨fun hx => absurd hx (by decide),
        fun hx => absurd h1 (not_lt.mpr (by linarith))⟩
  · refine ⟨?_, ⟨fun _ => ⟨not_lt.mp h1, h2⟩, fun _ => rfl⟩, ?_⟩
    · exact ⟨fun hx => absurd hx (by decide), fun hx => absurd hx h1⟩
    · exact ⟨fun hx => absurd hx (by decide),
        fun hx => absurd h2 (not_lt.mpr hx)⟩
  · refine ⟨?_, ?_, ⟨fun _ => not_lt.mp h2, fun _ => rfl⟩⟩
    · exact ⟨fun hx => absurd hx (by decide), fun hx => absurd hx h1⟩
    · exact ⟨fun hx => absurd hx (by decide), fun hx => absurd hx.2 h2⟩

/-- C6: verifying a fresh password-reset token within the maximum age
returns the embedded email; verification fails on a bad signature, and
fails after the maximum age even with a valid signature. -/
theorem spec_c6_reset_token :
    (∀ (email : String) (t now : ℤ), now - t ≤ 900 →
        verify_password_reset_token (create_password_reset_token email t)
          900 now = some email)
    ∧ (∀ (tok : SignedToken) (max_age now : ℤ),
        tok.signature ≠ token_signature SECRET_KEY "password-reset-salt"
          tok.payload tok.signed_at →
        verify_password_reset_token tok max_age now = none)
    ∧ (∀ (email : String) (t now : ℤ), now - t > 900 →
        verify_password_reset_token (create_password_reset_token email t)
          900 now = none) := by
  refine ⟨?_, ?_, ?_⟩
  · intro email t now h
    unfold verify_password_reset_token serializer_loads
      create_password_reset_token serializer_dumps
    simp [not_lt.mpr h]
  · intro tok max_age now h
    unfold verify_password_reset_token serializer_loads
    simp [h]
  · intro email t now h
    unfold verify_password_reset_token serializer_loads
      create_password_reset_token serializer_dumps
    simp [h]

/-- C6 witness: round-trip, expiry, and bad-signature at concrete values. -/
theorem spec_c6_reset_token_witness :
    verify_password_reset_token (create_password_reset_token "x@y.z" 0)
        900 100 = some "x@y.z"
    ∧ verify_password_reset_token
        { payload := "x@y.z", signed_at := 0, signature := 0 } 900 100 = none
    ∧ verify_password_reset_token (create_password_reset_token "x@y.z" 0)
        900 1000 = none :=
  ⟨spec_c6_reset_token.1 "x@y.z" 0 100 (by decide),
   spec_c6_reset_token.2.1 { payload := "x@y.z", signed_at := 0, signature := 0 }
     900 100 (by decide),
   spec_c6_reset_token.2.2 "x@y.z" 0 1000 (by decide)⟩

/-- C7: the score-risk step never reaches the claimed computation.  The call
at langgraph_service.py line 92 passes three positional arguments to the
two-parameter `calculate_risk_score`, so Python raises `TypeError` on every
input and the `except` branch substitutes risk score 0.5, recommendation
"verify", action required true; the claimed behavior (score from the
standalone utility, `action_required` = score > RISK_THRESHOLD_HIGH) would
differ, e.g. at anomaly score 0.2. -/
theorem spec_c7_score_risk :
    (∀ st : ScoreRiskInput,
        score_risk_node st =
          { risk_score := 0.5
            recommendation := "verify"
            action_required := true })
    ∧ (score_risk_node
        { anomaly_score := 0.2
          login_event := []
          user_history := none }).action_required = true
    ∧ (score_risk_node_claimed
        { anomaly_score := 0.2
          login_event := []
          user_history := none }).action_required = false
    ∧ (score_risk_node_claimed
        { anomaly_score := 0.2
          login_event := []
          user_history := none }).risk_score = 0.2 := by
  have hval : calculate_risk_score 0.2 none = 0.2 := by
    show max 0 (min 1 (0.2:ℚ)) = 0.2
    rw [min_eq_right (by norm_num), max_eq_right (by norm_num)]
  refine ⟨fun st => rfl, rfl, ?_, ?_⟩
  · show decide (calculate_risk_score 0.2 none > RISK_THRESHOLD_HIGH) = false
    rw [hval, decide_eq_false_iff_not, RISK_THRESHOLD_HIGH]
    norm_num
  · exact hval

/- ---------------------------------------------------------------------
Claim theorem C3.
--------------------------------------------------------------------- -/

/-- C3: single-event anomaly scoring returns exactly 0.5 for a freshly
constructed service with no model artifact files and whenever the scoring
attempt raises; for a trained service whose models score the extracted
features it returns 0.5 times the classifier probability plus 0.5 times the
outlier score normalized from the assumed raw range [-1.0, 0.5] and
clamped to [0,1]. -/
theorem spec_c3_detect_anomaly :
    (∀ e : LoginEventData, detect_anomaly (load_models none none) e = 0.5)
    ∧ (∀ (svc : AnomalyServiceState) (e : LoginEventData),
        detect_anomaly_try svc e = Except.error () →
        detect_anomaly svc e = 0.5)
    ∧ (∀ (iso lr : MLModel) (e : LoginEventData) (s p : ℚ),
        iso (extract_features e) = Except.ok s →
        lr (extract_features e) = Except.ok p →
        detect_anomaly
          { is_trained := true
            iso_forest := some iso
            logistic_reg := some lr } e =
          0.5 * p + 0.5 * max 0 (min 1 ((s - (-1.0)) / (0.5 - (-1.0))))) := by
  refine ⟨fun e => rfl, ?_, ?_⟩
  · intro svc e h
    unfold detect_anomaly
    rw [h]
  · intro iso lr e s p hi hl
    unfold detect_anomaly detect_anomaly_try
    simp [hi, hl, Option.getD, bind, Except.bind, pure, Except.pure]

/-- C3 witness: the untrained, erroring, and trained cases at concrete
inputs. -/
theorem spec_c3_detect_anomaly_witness :
    detect_anomaly (load_models none none)
        { timestamp := none
          ip_reputation := 0.5
          device_seen_before := false
          location_changed := false } = 0.5
    ∧ detect_anomaly
        { is_trained := true
          iso_forest := some unfitted_model
          logistic_reg := some (fun _ => Except.ok 0.8) }
        { timestamp := none
          ip_reputation := 0.5
          device_seen_before := false
          location_changed := false } = 0.5
    ∧ detect_anomaly
        { is_trained := true
          iso_forest := some (fun _ => Except.ok 0.4)
          logistic_reg := some (fun _ => Except.ok 0.8) }
        { timestamp := none
          ip_reputation := 0.5
          device_seen_before := false
          location_changed := false } =
        0.5 * 0.8 + 0.5 * max 0 (min 1 ((0.4 - (-1.0)) / ((0.5:ℚ) - (-1.0)))) :=
  ⟨spec_c3_detect_anomaly.1 _,
   spec_c3_detect_anomaly.2.1 _ _ rfl,
   spec_c3_detect_anomaly.2.2 _ _ _ 0.4 0.8 rfl rfl⟩

/- ---------------------------------------------------------------------
Helper lemmas about chunk_list, and claim theorem C10.
--------------------------------------------------------------------- -/

lemma chunk_list_nil (n : ℕ) : chunk_list ([] : List α) n = [] := by
  have h : ((List.nil : List α).length + n - 1) / n = 0 := by
    simp only [List.length_nil, Nat.zero_add]
    cases n with
    | zero => rfl
    | succ m => exact Nat.div_eq_of_lt (by omega)
  unfold chunk_list
  rw [h]
  rfl

lemma chunk_map_shift (n : ℕ) (items : List α) :
    ∀ k s : ℕ,
      (List.range' (s + n) k n).map (fun i => (items.drop i).take n) =
        (List.range' s k n).map (fun i => ((items.drop n).drop i).take n) := by
  intro k
  induction k with
  | zero => intro s; simp
  | succ m ih =>
      intro s
      rw [List.range'_succ, List.range'_succ, List.map_cons, List.map_cons]
      congr 1
      · rw [List.drop_drop, Nat.add_comm s n]
      · exact ih (s + n)

lemma chunk_list_cons (n : ℕ) (h : 0 < n) (items : List α)
    (hne : items ≠ []) :
    chunk_list items n = items.take n :: chunk_list (items.drop n) n := by
  have hL : 0 < items.length := List.length_pos.mpr hne
  have hrepr : chunk_list items n =
      (List.range' 0 ((items.length + n - 1) / n) n).map
        (fun i => (items.drop i).take n) := rfl
  by_cases hle : items.length ≤ n
  · have hk : (items.length + n - 1) / n = 1 :=
      Nat.div_eq_of_lt_le (by omega) (by omega)
    have hd : items.drop n = [] := List.drop_eq_nil_of_le hle
    rw [hrepr, hk, List.range'_one, List.map_cons, List.map_nil,
      List.drop_zero, hd, chunk_list_nil]
  · have hgt : n < items.length := not_le.mp hle
    have hk : (items.length + n - 1) / n =
        ((items.drop n).length + n - 1) / n + 1 := by
      rw [List.length_drop]
      have hsplit : items.length + n - 1 = (items.length - n + n - 1) + n := by
        omega
      rw [hsplit, Nat.add_div_right _ h]
    rw [hrepr, hk, List.range'_succ, List.map_cons, List.drop_zero]
    congr 1
    exact (chunk_map_shift n items _ 0).trans rfl

lemma chunk_list_flatten {α : Type} (n : ℕ) (h : 0 < n) :
    ∀ items : List α, (chunk_list items n).flatten = items
  | [] => by rw [chunk_list_nil]; rfl
  | x :: xs => by
      rw [chunk_list_cons n h (x :: xs) (by simp), List.flatten_cons,
        chunk_list_flatten n h ((x :: xs).drop n)]
      exact List.take_append_drop n (x :: xs)
termination_by items => items.length
decreasing_by simp [List.length_drop]; omega

lemma chunk_list_dropLast {α : Type} (n : ℕ) (h : 0 < n) :
    ∀ items : List α, ∀ c ∈ (chunk_list items n).dropLast, c.length = n
  | [] => by
      rw [chunk_list_nil]
      intro c hc
      simp at hc
  | x :: xs => by
      rw [chunk_list_cons n h (x :: xs) (by simp)]
      by_cases hd : (x :: xs).drop n = []
      · rw [hd, chunk_list_nil]
        intro c hc
        simp at hc
      · have hlen : n < (x :: xs).length := by
          by_contra hcon
          exact hd (List.drop_eq_nil_of_le (not_lt.mp hcon))
        rw [chunk_list_cons n h ((x :: xs).drop n) hd, List.dropLast_cons₂]
        intro c hc
        rcases List.mem_cons.mp hc with hc1 | hc2
        · rw [hc1, List.length_take]
          omega
        · apply chunk_list_dropLast n h ((x :: xs).drop n) c
          rw [chunk_list_cons n h ((x :: xs).drop n) hd]
          exact hc2
termination_by items => items.length
decreasing_by simp [List.length_drop]; omega

lemma chunk_list_getLast {α : Type} (n : ℕ) (h : 0 < n) :
    ∀ items : List α, items ≠ [] →
      ∃ lc, (chunk_list items n).getLast? = some lc ∧ lc ≠ []
  | [] => fun hne => absurd rfl hne
  | x :: xs => fun _ => by
      rw [chunk_list_cons n h (x :: xs) (by simp)]
      by_cases hd : (x :: xs).drop n = []
      · rw [hd, chunk_list_nil]
        refine ⟨(x :: xs).take n, List.getLast?_singleton _, ?_⟩
        have hpos : ((x :: xs).take n).length ≠ 0 := by
          rw [List.length_take]
          simp
          omega
        intro hnil
        exact hpos (by rw [hnil]; rfl)
      · obtain ⟨lc, hl, hln⟩ := chunk_list_getLast n h ((x :: xs).drop n) hd
        refine ⟨lc, ?_, hln⟩
        rw [chunk_list_cons n h ((x :: xs).drop n) hd,
          List.getLast?_cons_cons,
          ← chunk_list_cons n h ((x :: xs).drop n) hd]
        exact hl
termination_by items => items.length
decreasing_by simp [List.length_drop]; omega

/-- C10: for every list and positive chunk size, the chunks concatenate
back to the original list, every chunk except possibly the last has exactly
chunk-size elements, and the last chunk is non-empty when the input is
non-empty. -/
theorem spec_c10_chunk_list {α : Type} (items : List α) (chunk_size : ℕ)
    (h : 0 < chunk_size) :
    (chunk_list items chunk_size).flatten = items
    ∧ (∀ c ∈ (chunk_list items chunk_size).dropLast, c.length = chunk_size)
    ∧ (items ≠ [] →
        ∃ lc, (chunk_list items chunk_size).getLast? = some lc ∧ lc ≠ []) :=
  ⟨chunk_list_flatten chunk_size h items,
   chunk_list_dropLast chunk_size h items,
   fun hne => chunk_list_getLast chunk_size h items hne⟩

/-- C10 witness: the theorem at a concrete list and chunk size. -/
theorem spec_c10_chunk_list_witness :
    (chunk_list [1, 2, 3, 4, 5] 2).flatten = [1, 2, 3, 4, 5]
    ∧ (∀ c ∈ (chunk_list [1, 2, 3, 4, 5] 2).dropLast, c.length = 2)
    ∧ (([1, 2, 3, 4, 5] : List ℕ) ≠ [] →
        ∃ lc, (chunk_list [1, 2, 3, 4, 5] 2).getLast? = some lc ∧ lc ≠ []) :=
  spec_c10_chunk_list [1, 2, 3, 4, 5] 2 (by decide)
